import Mathlib

/-!
Verification of the Smart-Algo-Trading real-time trading engine core.

This file gives a shallow embedding, in Lean 4, of the parts of the
repository that the checked properties are about:

* `backend/app/services/renko.py`          (Renko brick accumulator)
* `backend/app/services/candle_builder.py` (tick to OHLC candle builder)
* `backend/app/services/market_hours.py`   (market clock)
* `backend/app/services/paper_trading.py`  (paper execution engine)

Python floats are modelled as exact rationals (`Rat`); all the concrete
scenarios below involve only values at which IEEE double arithmetic is
exact or where the floor operations agree with exact arithmetic, so the
modelling does not change any of the verdicts.  Python ints are `Int`
(or `Nat` for counters that never go below zero in the source).
Python dicts, which preserve insertion order, are association lists with
insert-at-end and update-in-place operations.
-/

namespace SmartAlgo

/-! ## Association lists: the embedding of Python dicts -/

/-- Lookup in an association list (Python `d.get(k)`). -/
def alookup {α : Type} (l : List (String × α)) (k : String) : Option α :=
  match l with
  | [] => none
  | (k', v) :: t => if k' = k then some v else alookup t k

/-- Lookup with default (Python `d.get(k, dflt)`). -/
def alookupD {α : Type} (l : List (String × α)) (k : String) (dflt : α) : α :=
  (alookup l k).getD dflt

/-- Python `d[k] = v`: update in place if the key exists, append otherwise. -/
def aset {α : Type} (l : List (String × α)) (k : String) (v : α) : List (String × α) :=
  match l with
  | [] => [(k, v)]
  | (k', v') :: t => if k' = k then (k, v) :: t else (k', v') :: aset t k v

/-- Python `del d[k]`. -/
def aerase {α : Type} (l : List (String × α)) (k : String) : List (String × α) :=
  match l with
  | [] => []
  | (k', v') :: t => if k' = k then t else (k', v') :: aerase t k

/-! ## Renko accumulator (`backend/app/services/renko.py`) -/

/-- `RenkoBrick` dataclass. -/
structure RenkoBrick where
  brick_size : Rat
  upper_limit : Option Rat := none
  lower_limit : Option Rat := none
  brick_count : Int := 0
  last_price : Rat := 0
deriving Repr, DecidableEq

/-- Result dictionary returned by `RenkoCalculator.update_brick`. -/
structure RenkoResult where
  brick_formed : Bool
  brick_count : Int
  brick_change : Int := 0
deriving Repr, DecidableEq

/-- `RenkoCalculator.initialize_brick` for one symbol.  Note the Python
truthiness test `if initial_price:`: a price of exactly `0` (or `None`)
leaves the limits unset. -/
def initialize_brick (brick_size : Rat) (initial_price : Option Rat) : RenkoBrick :=
  match initial_price with
  | none => { brick_size := brick_size }
  | some p =>
      if p = 0 then { brick_size := brick_size }
      else { brick_size := brick_size
             upper_limit := some (p + brick_size)
             lower_limit := some (p - brick_size)
             last_price := p }

/-- `RenkoCalculator.update_brick` for one symbol whose state exists.
Python float floor division `//` is modelled by `Int.floor` on exact
rationals.  The branch of the source that auto-initializes a missing
symbol is the composition of `initialize_brick` with nothing else and is
not needed here, since every claim starts from an initialized symbol. -/
def update_brick (b : RenkoBrick) (price : Rat) : RenkoBrick × RenkoResult :=
  let b := { b with last_price := price }
  match b.upper_limit, b.lower_limit with
  | none, _ =>
      ({ b with upper_limit := some (price + b.brick_size)
                lower_limit := some (price - b.brick_size) },
       { brick_formed := false, brick_count := 0 })
  | some _, none =>
      -- unreachable in the source: both limits are always set together
      (b, { brick_formed := false, brick_count := 0, brick_change := 0 })
  | some upper, some lower =>
      let old_count := b.brick_count
      if price > upper then
        let gap : Int := Int.floor ((price - upper) / b.brick_size)
        let bricks_formed : Int := 1 + gap
        let new_lower := upper + (gap * b.brick_size) - b.brick_size
        let new_upper := upper + (bricks_formed * b.brick_size)
        let new_count := max 1 (b.brick_count + bricks_formed)
        ({ b with upper_limit := some new_upper
                  lower_limit := some new_lower
                  brick_count := new_count },
         { brick_formed := true, brick_count := new_count,
           brick_change := new_count - old_count })
      else if price < lower then
        let gap : Int := Int.floor ((lower - price) / b.brick_size)
        let bricks_formed : Int := 1 + gap
        let new_upper := lower - (gap * b.brick_size) + b.brick_size
        let new_lower := lower - (bricks_formed * b.brick_size)
        let new_count := min (-1) (b.brick_count - bricks_formed)
        ({ b with upper_limit := some new_upper
                  lower_limit := some new_lower
                  brick_count := new_count },
         { brick_formed := true, brick_count := new_count,
           brick_change := new_count - old_count })
      else
        (b, { brick_formed := false, brick_count := b.brick_count,
              brick_change := 0 })

/-- Feeding a price sequence through `update_brick`, keeping only the state. -/
def update_brick_run (b : RenkoBrick) (prices : List Rat) : RenkoBrick :=
  prices.foldl (fun st p => (update_brick st p).1) b

/-- Both limits are set and they are exactly `2 * brick_size` apart. -/
def RenkoBrick.widthOk (b : RenkoBrick) : Prop :=
  ∃ u l, b.upper_limit = some u ∧ b.lower_limit = some l ∧ u - l = 2 * b.brick_size


/-! ## Paper trading engine (`backend/app/services/paper_trading.py`) -/

/-- `OrderStatus` enum. -/
inductive OrderStatus where
  | PENDING
  | OPEN
  | COMPLETE
  | CANCELLED
  | REJECTED
deriving Repr, DecidableEq

/-- `PaperOrder` dataclass (after `__post_init__`, which sets
`pending_quantity = quantity`). -/
structure PaperOrder where
  order_id : String
  tradingsymbol : String
  exchange : String
  transaction_type : String
  quantity : Int
  order_type : String
  product : String
  status : OrderStatus
  price : Option Rat := none
  trigger_price : Option Rat := none
  average_price : Option Rat := none
  filled_quantity : Int := 0
  pending_quantity : Int := 0
  cancelled_quantity : Int := 0
  tag : Option String := none
deriving Repr, DecidableEq

/-- `PaperPosition` dataclass. -/
structure PaperPosition where
  symbol : String
  exchange : String
  product : String
  quantity : Int
  average_price : Rat
  last_price : Rat
  unrealised_pnl : Rat := 0
  realised_pnl : Rat := 0
  buy_quantity : Int := 0
  sell_quantity : Int := 0
  buy_value : Rat := 0
  sell_value : Rat := 0
deriving Repr, DecidableEq

/-- One entry of the append-only trade log (`trade_record` dict in
`_simulate_fill`). -/
structure TradeRecord where
  order_id : String
  symbol : String
  action : String
  quantity : Int
  price : Rat
  tag : Option String
deriving Repr, DecidableEq

/-- The mutable state of `PaperTradingEngine`.  Orders, positions and the
LTP cache are Python dicts, embedded as insertion-ordered association
lists.  Timestamps and the Mongo handles carry no information the claims
depend on and are omitted. -/
structure EngineState where
  orders : List (String × PaperOrder)
  positions : List (String × PaperPosition)
  trades : List TradeRecord
  daily_pnl : Rat
  total_pnl : Rat
  virtual_capital : Rat
  available_funds : Rat
  invested_funds : Rat
  reserved_funds : Rat
  realized_pnl : Rat
  max_loss_per_day : Rat
  max_positions : Nat
  risk_per_trade : Rat
  trades_today : Nat
  max_trades_per_day : Nat
  ltp_cache : List (String × Rat)
deriving Repr, DecidableEq

/-- `PaperTradingEngine.__init__` with the fallback configuration values
(`MAX_LOSS_PER_DAY = 5000`, `MAX_POSITIONS = 3`, `RISK_PER_TRADE = 0.01`,
`MAX_TRADES_PER_DAY = 10`) and no persisted state to load. -/
def initial_engine : EngineState where
  orders := []
  positions := []
  trades := []
  daily_pnl := 0
  total_pnl := 0
  virtual_capital := 100000
  available_funds := 100000
  invested_funds := 0
  reserved_funds := 0
  realized_pnl := 0
  max_loss_per_day := 5000
  max_positions := 3
  risk_per_trade := 1/100
  trades_today := 0
  max_trades_per_day := 10
  ltp_cache := []

/-- `tag is not None and tag.startswith("BOT_")` (and the equivalent
truthiness form `order.tag and order.tag.startswith("BOT_")` used in
`_update_position`: the empty string does not start with `BOT_`, so the
two agree). -/
def tag_is_bot (tag : Option String) : Bool :=
  match tag with
  | some t => t.startsWith "BOT_"
  | none => false

/-- `PaperTradingEngine._calculate_pnl`. -/
def calculate_pnl (p : PaperPosition) : PaperPosition :=
  if p.quantity > 0 then
    { p with unrealised_pnl := (p.last_price - p.average_price) * p.quantity }
  else if p.quantity < 0 then
    { p with unrealised_pnl := (p.average_price - p.last_price) * |(p.quantity : Rat)| }
  else
    { p with realised_pnl := p.sell_value - p.buy_value, unrealised_pnl := 0 }

/-- `PaperTradingEngine._update_position`: position accounting plus the
virtual-fund bookkeeping after a fill. -/
def update_position (s : EngineState) (order : PaperOrder) (fill_price : Rat) :
    EngineState :=
  let key := order.tradingsymbol ++ "_" ++ order.exchange ++ "_" ++ order.product
  let is_bot := tag_is_bot order.tag
  let pos0 : PaperPosition :=
    match alookup s.positions key with
    | some p => p
    | none =>
        { symbol := order.tradingsymbol, exchange := order.exchange
          product := order.product, quantity := 0, average_price := 0
          last_price := fill_price }
  let trade_value : Rat := (order.quantity : Rat) * fill_price
  let (s1, pos1) :=
    if order.transaction_type = "BUY" then
      let sFunds :=
        if is_bot ∧ s.reserved_funds > 0 then
          let deduct_from_reserved := min s.reserved_funds trade_value
          let deduct_from_available := trade_value - deduct_from_reserved
          { s with reserved_funds := s.reserved_funds - deduct_from_reserved
                   available_funds := s.available_funds - deduct_from_available }
        else
          { s with available_funds := s.available_funds - trade_value }
      let sFunds := { sFunds with invested_funds := sFunds.invested_funds + trade_value }
      (sFunds,
       { pos0 with buy_quantity := pos0.buy_quantity + order.quantity
                   buy_value := pos0.buy_value + trade_value
                   quantity := pos0.quantity + order.quantity })
    else
      let posS :=
        { pos0 with sell_quantity := pos0.sell_quantity + order.quantity
                    sell_value := pos0.sell_value + trade_value
                    quantity := pos0.quantity - order.quantity }
      if posS.quantity = 0 then
        -- position fully closed: the code subtracts the FULL buy_value and
        -- books sell_value - buy_value as this sell's realized P&L
        let realized := posS.sell_value - posS.buy_value
        let posC := { posS with realised_pnl := realized }
        let sFunds := { s with invested_funds := s.invested_funds - posS.buy_value }
        let sFunds :=
          if is_bot then
            { sFunds with reserved_funds := sFunds.reserved_funds + trade_value }
          else
            { sFunds with available_funds := sFunds.available_funds + trade_value }
        ({ sFunds with realized_pnl := sFunds.realized_pnl + realized
                       daily_pnl := sFunds.daily_pnl + realized
                       total_pnl := sFunds.total_pnl + realized }, posC)
      else
        let avg_cost :=
          if posS.buy_quantity > 0 then posS.buy_value / (posS.buy_quantity : Rat) else 0
        let cost_of_sold := (order.quantity : Rat) * avg_cost
        let partial_pnl := trade_value - cost_of_sold
        let sFunds := { s with invested_funds := s.invested_funds - cost_of_sold }
        let sFunds :=
          if is_bot then
            { sFunds with reserved_funds := sFunds.reserved_funds + trade_value }
          else
            { sFunds with available_funds := sFunds.available_funds + trade_value }
        ({ sFunds with realized_pnl := sFunds.realized_pnl + partial_pnl
                       daily_pnl := sFunds.daily_pnl + partial_pnl
                       total_pnl := sFunds.total_pnl + partial_pnl }, posS)
  let pos2 :=
    if pos1.quantity ≠ 0 then
      { pos1 with average_price := |(pos1.buy_value - pos1.sell_value) / (pos1.quantity : Rat)| }
    else pos1
  let pos3 := calculate_pnl { pos2 with last_price := fill_price }
  if pos3.quantity = 0 then
    { s1 with positions := aerase s1.positions key }
  else
    { s1 with positions := aset s1.positions key pos3 }

/-- `PaperTradingEngine._simulate_fill`.  The synchronous LTP fetch from
`market_data_service` is the function argument `fetch`; a `none` result
stands for both an unavailable service and a failed fetch. -/
def simulate_fill (fetch : String → Option Rat) (s : EngineState) (order_id : String) :
    EngineState :=
  match alookup s.orders order_id with
  | none => s
  | some order =>
      let key := order.exchange ++ ":" ++ order.tradingsymbol
      let (fill_price, cache) :=
        if order.order_type = "MARKET" then
          match alookup s.ltp_cache key with
          | some p => (p, s.ltp_cache)
          | none =>
              match fetch key with
              | some p => (p, aset s.ltp_cache key p)
              | none =>
                  -- `fill_price = order.price or 100.0` (Python truthiness)
                  ((match order.price with
                    | some p => if p = 0 then 100 else p
                    | none => 100), s.ltp_cache)
        else
          -- LIMIT path; `place_order` only triggers fills for MARKET orders,
          -- so this branch is never reached from the embedded entry points
          (order.price.getD 0, s.ltp_cache)
      let order' := { order with status := OrderStatus.COMPLETE
                                 filled_quantity := order.quantity
                                 pending_quantity := 0
                                 average_price := some fill_price }
      let s1 := { s with orders := aset s.orders order_id order', ltp_cache := cache }
      let s2 := update_position s1 order' fill_price
      { s2 with trades_today := s2.trades_today + 1
                trades := s2.trades ++
                  [{ order_id := order_id, symbol := order.tradingsymbol
                     action := order.transaction_type, quantity := order.quantity
                     price := fill_price, tag := order.tag }] }

/-- `PaperTradingEngine.can_place_trade`. -/
def can_place_trade (s : EngineState) (required_funds : Rat) (is_bot_trade : Bool) :
    Bool × String :=
  let limit := s.available_funds + (if is_bot_trade then s.reserved_funds else 0)
  if required_funds > 0 ∧ required_funds > limit then
    (false, "Insufficient funds")
  else if s.max_loss_per_day ≤ |s.daily_pnl| then
    (false, "Daily loss limit reached")
  else if s.max_positions ≤ s.positions.length then
    (false, "Max positions limit reached")
  else if s.max_trades_per_day ≤ s.trades_today then
    (false, "Max trades per day reached")
  else
    (true, "OK")

/-- The estimated price used by the funds check in `place_order`:
`price or self.ltp_cache.get(f"{exchange}:{tradingsymbol}", 100.0)`.
A provided price of exactly `0` is falsy in Python and falls through to
the cache lookup. -/
def estimated_price (s : EngineState) (tradingsymbol exchange : String)
    (price : Option Rat) : Rat :=
  match price with
  | some p =>
      if p = 0 then alookupD s.ltp_cache (exchange ++ ":" ++ tradingsymbol) 100 else p
  | none => alookupD s.ltp_cache (exchange ++ ":" ++ tradingsymbol) 100

/-- `PaperTradingEngine.place_order` up to (and including) inserting the
new PENDING order; the immediate MARKET fill is layered on top in
`place_order`.  The Python method raises on the safety guard and on any
risk-rule violation, mutating nothing; this is the `Except.error` case.
Order ids come from `uuid4`; the embedding mints the fresh id
`"PAPER_" ++ toString s.orders.length`. -/
def place_order_core (paper_mode : Bool) (s : EngineState)
    (tradingsymbol exchange transaction_type : String) (quantity : Int)
    (order_type product : String) (price trigger_price : Option Rat)
    (tag : Option String) : Except String (EngineState × String) :=
  if paper_mode = false then
    Except.error "CRITICAL ERROR: Attempted to place REAL order"
  else
    let is_bot := tag_is_bot tag
    let required : Rat :=
      if transaction_type = "BUY" then
        (quantity : Rat) * estimated_price s tradingsymbol exchange price
      else 0
    let check := can_place_trade s required is_bot
    if check.1 then
      let order_id := "PAPER_" ++ toString s.orders.length
      let order : PaperOrder :=
        { order_id := order_id, tradingsymbol := tradingsymbol
          exchange := exchange, transaction_type := transaction_type
          quantity := quantity, order_type := order_type, product := product
          status := OrderStatus.PENDING, price := price
          trigger_price := trigger_price, pending_quantity := quantity
          tag := tag }
      Except.ok ({ s with orders := aset s.orders order_id order }, order_id)
    else
      Except.error ("Risk rule violation: " ++ check.2)

/-- `PaperTradingEngine.place_order`: the full entry point, which for
MARKET orders immediately runs `_simulate_fill` on the new order. -/
def place_order (paper_mode : Bool) (fetch : String → Option Rat) (s : EngineState)
    (tradingsymbol exchange transaction_type : String) (quantity : Int)
    (order_type product : String) (price trigger_price : Option Rat)
    (tag : Option String) : Except String (EngineState × String) :=
  match place_order_core paper_mode s tradingsymbol exchange transaction_type
      quantity order_type product price trigger_price tag with
  | Except.error e => Except.error e
  | Except.ok (s1, order_id) =>
      if order_type = "MARKET" then
        Except.ok (simulate_fill fetch s1 order_id, order_id)
      else
        Except.ok (s1, order_id)

/-- `PaperTradingEngine.update_ltp` followed by its `_update_daily_pnl`:
refresh the cache, recompute `last_price` and unrealized P&L of every
position on the same `(symbol, exchange)`, then overwrite `daily_pnl`
with the open-position P&L total and add the open-position realized
total to `total_pnl`. -/
def update_ltp (s : EngineState) (symbol exchange : String) (ltp : Rat) :
    EngineState :=
  let key := exchange ++ ":" ++ symbol
  let positions := s.positions.map (fun kv =>
    if kv.2.symbol = symbol ∧ kv.2.exchange = exchange then
      (kv.1, calculate_pnl { kv.2 with last_price := ltp })
    else kv)
  let total_unrealised := (positions.map (fun kv => kv.2.unrealised_pnl)).sum
  let total_realised := (positions.map (fun kv => kv.2.realised_pnl)).sum
  { s with ltp_cache := aset s.ltp_cache key ltp
           positions := positions
           daily_pnl := total_unrealised + total_realised
           total_pnl := s.total_pnl + total_realised }

/-- `PaperTradingEngine.allocate_funds`. -/
def allocate_funds (s : EngineState) (amount : Rat) : EngineState × Bool :=
  if amount > s.available_funds then (s, false)
  else
    ({ s with available_funds := s.available_funds - amount
              reserved_funds := s.reserved_funds + amount }, true)

/-- `PaperTradingEngine.reclaim_reserved_funds`. -/
def reclaim_reserved_funds (s : EngineState) : EngineState :=
  if s.reserved_funds > 0 then
    { s with available_funds := s.available_funds + s.reserved_funds
             reserved_funds := 0 }
  else s

/-- The funds document persisted by `_save_meta` and read back by
`_load_state`. -/
structure PersistedMeta where
  virtual_capital : Rat
  available_funds : Rat
  invested_funds : Rat
  reserved_funds : Rat
  realized_pnl : Rat
  total_pnl : Rat
  daily_pnl : Rat
deriving Repr, DecidableEq

/-- `PaperTradingEngine._load_state` on a freshly constructed engine:
funds come from the meta document when present, orders and positions are
rebuilt keyed as in memory, the trade log is loaded whole, and
`trades_today` is set to `len(self.trades)` (the full persisted history,
marked `# Simplification` in the source). -/
def load_state (meta : Option PersistedMeta) (orders : List (String × PaperOrder))
    (positions : List (String × PaperPosition)) (trades : List TradeRecord) :
    EngineState :=
  let base := initial_engine
  let s :=
    match meta with
    | some m =>
        { base with virtual_capital := m.virtual_capital
                    available_funds := m.available_funds
                    invested_funds := m.invested_funds
                    reserved_funds := m.reserved_funds
                    realized_pnl := m.realized_pnl
                    total_pnl := m.total_pnl
                    daily_pnl := m.daily_pnl }
    | none => base
  { s with orders := orders, positions := positions, trades := trades
           trades_today := trades.length }

/-! ## Candle builder (`backend/app/services/candle_builder.py`) -/

/-- A `datetime` value as the candle builder uses it: an opaque day index
plus the clock fields that `replace` and equality touch. -/
structure PyTime where
  date : Int
  hour : Nat
  minute : Nat
  second : Nat
  microsecond : Nat
deriving Repr, DecidableEq

/-- Chronological value of a `PyTime` (used only to state *earlier than*
for well-formed clock readings). -/
def PyTime.toMicros (t : PyTime) : Int :=
  (((t.date * 24 + t.hour) * 60 + t.minute) * 60 + t.second) * 1000000 + t.microsecond

/-- `a` is chronologically strictly before `b`. -/
def PyTime.before (a b : PyTime) : Prop := a.toMicros < b.toMicros

/-- `CandleBuilder._get_candle_start`: floor the minute within the hour to
the interval boundary and zero the sub-minute fields
(`timestamp.replace(minute=(minute // m) * m, second=0, microsecond=0)`). -/
def get_candle_start (t : PyTime) (minutes : Nat) : PyTime :=
  { t with minute := t.minute / minutes * minutes, second := 0, microsecond := 0 }

/-- The `Candle` class. -/
structure Candle where
  timestamp : PyTime
  interval_minutes : Nat
  open_price : Option Rat := none
  high : Option Rat := none
  low : Option Rat := none
  close : Option Rat := none
  volume : Int := 0
  tick_count : Nat := 0
  is_closed : Bool := false
deriving Repr, DecidableEq

/-- `Candle.__init__`. -/
def Candle.new (ts : PyTime) (minutes : Nat) : Candle :=
  { timestamp := ts, interval_minutes := minutes }

/-- `Candle.update`.  In the source `high` and `low` are always set when
`open` is (they are written together); `getD price` totalizes the
impossible `none` case without changing any reachable value. -/
def Candle.update (c : Candle) (price : Rat) (volume : Int) : Candle :=
  let c :=
    if c.open_price = none then
      { c with open_price := some price, high := some price, low := some price }
    else
      { c with high := some (max (c.high.getD price) price)
               low := some (min (c.low.getD price) price) }
  { c with close := some price, volume := c.volume + volume
           tick_count := c.tick_count + 1 }

/-- State held by `CandleBuilder` for one `(instrument_token, interval)`
key: the open candle, if any, and the ring of closed candles.  Distinct
keys never interact in `_update_candle`, so the per-key slot is the whole
state the claims range over. -/
structure CandleSlot where
  current : Option Candle
  history : List Candle
deriving Repr, DecidableEq

/-- `CandleBuilder.max_history`. -/
def max_history : Nat := 500

/-- The history trim in `_update_candle`: keep the last `max_history`. -/
def trim_history (l : List Candle) : List Candle :=
  if max_history < l.length then l.drop (l.length - max_history) else l

/-- `CandleBuilder._update_candle` for one `(token, interval)` slot.
Returns the new slot and the list of candles passed to the registered
close callbacks by this call (the close-event stream contribution). -/
def update_candle (slot : CandleSlot) (minutes : Nat) (t : PyTime) (price : Rat)
    (volume : Int) : CandleSlot × List Candle :=
  let cs := get_candle_start t minutes
  match slot.current with
  | none =>
      ({ current := some ((Candle.new cs minutes).update price volume)
         history := slot.history }, [])
  | some c =>
      if c.timestamp = cs then
        ({ slot with current := some (c.update price volume) }, [])
      else
        let closed := { c with is_closed := true }
        ({ current := some ((Candle.new cs minutes).update price volume)
           history := trim_history (slot.history ++ [closed]) }, [closed])

/-! ## Market clock (`backend/app/services/market_hours.py`) -/

/-- An instant in market-local (IST) time. -/
structure ISTTime where
  year : Nat
  month : Nat
  day : Nat
  hour : Nat
  minute : Nat
  second : Nat
deriving Repr, DecidableEq

/-- Models `datetime.weekday()` of the Python standard library
(Monday = 0 .. Sunday = 6) via Sakamoto's method on the Gregorian
calendar. -/
def py_weekday (t : ISTTime) : Nat :=
  let tbl := [0, 3, 2, 5, 0, 3, 5, 1, 4, 6, 2, 4]
  let y := if t.month < 3 then t.year - 1 else t.year
  let sunday0 := (y + y / 4 - y / 100 + y / 400 + tbl.getD (t.month - 1) 0 + t.day) % 7
  (sunday0 + 6) % 7

/-- `MarketHours.HOLIDAYS_2025` as `(year, month, day)` triples. -/
def HOLIDAYS_2025 : List (Nat × Nat × Nat) :=
  [(2025, 1, 26), (2025, 2, 26), (2025, 3, 14), (2025, 3, 31),
   (2025, 4, 10), (2025, 4, 14), (2025, 4, 18), (2025, 5, 1),
   (2025, 6, 7), (2025, 8, 15), (2025, 8, 27), (2025, 10, 2),
   (2025, 10, 21), (2025, 10, 30), (2025, 11, 5), (2025, 11, 24),
   (2025, 12, 25)]

/-- `MarketHours.is_market_holiday`: weekends count as holidays, then the
explicit calendar is consulted. -/
def is_market_holiday (t : ISTTime) : Bool :=
  if 5 ≤ py_weekday t then true
  else HOLIDAYS_2025.contains (t.year, t.month, t.day)

/-- Seconds since local midnight; Python `time` objects compare
lexicographically on `(hour, minute, second)`, which for in-range fields
is this numeric order. -/
def clock_seconds (t : ISTTime) : Nat :=
  t.hour * 3600 + t.minute * 60 + t.second

/-- `time(9, 0)` in seconds. -/
def PRE_OPEN_START : Nat := 9 * 3600

/-- `time(9, 15)` in seconds. -/
def MARKET_OPEN : Nat := 9 * 3600 + 15 * 60

/-- `time(15, 30)` in seconds. -/
def MARKET_CLOSE : Nat := 15 * 3600 + 30 * 60

/-- `time(16, 0)` in seconds. -/
def POST_CLOSE : Nat := 16 * 3600

/-- `MarketHours.get_market_status`, restricted to the `(status, session)`
pair (the remaining dict entries are formatted display strings). -/
def get_market_status (t : ISTTime) : String × String :=
  if is_market_holiday t then ("CLOSED", "HOLIDAY")
  else if 5 ≤ py_weekday t then ("CLOSED", "WEEKEND")
  else if PRE_OPEN_START ≤ clock_seconds t ∧ clock_seconds t < MARKET_OPEN then
    ("PRE-OPEN", "PRE-MARKET")
  else if MARKET_OPEN ≤ clock_seconds t ∧ clock_seconds t < MARKET_CLOSE then
    ("OPEN", "REGULAR")
  else if MARKET_CLOSE ≤ clock_seconds t ∧ clock_seconds t < POST_CLOSE then
    ("CLOSED", "POST-MARKET")
  else ("CLOSED", "AFTER-HOURS")

/-! ## Scenario plumbing -/

/-- The state after a `place_order` call, as a caller observes it: the
Python method raises on rejection having mutated nothing, so the error
case keeps the input state. -/
def place_order_state (paper_mode : Bool) (fetch : String → Option Rat)
    (s : EngineState) (tradingsymbol exchange transaction_type : String)
    (quantity : Int) (order_type product : String)
    (price trigger_price : Option Rat) (tag : Option String) : EngineState :=
  match place_order paper_mode fetch s tradingsymbol exchange transaction_type
      quantity order_type product price trigger_price tag with
  | Except.ok (s', _) => s'
  | Except.error _ => s


/-- C1 scenario, step 1: a tick sets the cached LTP of NSE:RELIANCE to
2500 on the fresh engine. -/
def c1_s1 : EngineState := update_ltp initial_engine "RELIANCE" "NSE" 2500

/-- C1 scenario, step 2: MARKET BUY of 10 RELIANCE (MIS, untagged). -/
def c1_s2 : EngineState :=
  place_order_state true (fun _ => none) c1_s1
    "RELIANCE" "NSE" "BUY" 10 "MARKET" "MIS" none none none

/-- C1 scenario, step 3: a tick moves the LTP to 2510. -/
def c1_s3 : EngineState := update_ltp c1_s2 "RELIANCE" "NSE" 2510

/-- C1 scenario, step 4: MARKET SELL of 10 RELIANCE. -/
def c1_s4 : EngineState :=
  place_order_state true (fun _ => none) c1_s3
    "RELIANCE" "NSE" "SELL" 10 "MARKET" "MIS" none none none

/-- C2 scenario: BUY 10 at LTP 100, then two partial SELLs of 5 at LTP
110 on the same key. -/
def c2_s1 : EngineState := update_ltp initial_engine "TCS" "NSE" 100

/-- C2 scenario after the BUY of 10 at 100. -/
def c2_s2 : EngineState :=
  place_order_state true (fun _ => none) c2_s1
    "TCS" "NSE" "BUY" 10 "MARKET" "MIS" none none none

/-- C2 scenario after the LTP moves to 110. -/
def c2_s3 : EngineState := update_ltp c2_s2 "TCS" "NSE" 110

/-- C2 scenario after the first (partial) SELL of 5 at 110. -/
def c2_s4 : EngineState :=
  place_order_state true (fun _ => none) c2_s3
    "TCS" "NSE" "SELL" 5 "MARKET" "MIS" none none none

/-- C2 scenario after the closing SELL of 5 at 110. -/
def c2_s5 : EngineState :=
  place_order_state true (fun _ => none) c2_s4
    "TCS" "NSE" "SELL" 5 "MARKET" "MIS" none none none

/-! ## Theorems -/

lemma update_brick_size_eq (b : RenkoBrick) (p : Rat) :
    (update_brick b p).1.brick_size = b.brick_size := by
  unfold update_brick
  rcases hu : b.upper_limit with _ | u <;> rcases hl : b.lower_limit with _ | l <;>
    simp [hu, hl] <;> split_ifs <;> rfl

lemma update_brick_widthOk (b : RenkoBrick) (p : Rat) (h : b.widthOk) :
    (update_brick b p).1.widthOk := by
  obtain ⟨u, l, hu, hl, hw⟩ := h
  unfold update_brick
  simp only [hu, hl]
  split_ifs with h1 h2
  · refine ⟨_, _, rfl, rfl, ?_⟩
    push_cast
    ring
  · refine ⟨_, _, rfl, rfl, ?_⟩
    push_cast
    ring
  · exact ⟨u, l, rfl, rfl, hw⟩

lemma update_brick_run_widthOk (b : RenkoBrick) (ps : List Rat) (h : b.widthOk) :
    (update_brick_run b ps).widthOk := by
  induction ps generalizing b with
  | nil => exact h
  | cons p t ih =>
      exact ih _ (update_brick_widthOk b p h)

lemma update_brick_run_size_eq (b : RenkoBrick) (ps : List Rat) :
    (update_brick_run b ps).brick_size = b.brick_size := by
  induction ps generalizing b with
  | nil => rfl
  | cons p t ih =>
      rw [update_brick_run, List.foldl_cons]
      exact (ih _).trans (update_brick_size_eq b p)

/-- C5 counterexample: with `brick_size = 1`, starting at price 100 and
feeding `[100.5, 101.2, 102.5, 99.8]`, the final limits that the code
produces are `(101, 99)`, not the `(100, 98)` stated by the claim
(the brick count does become `-1`). -/
theorem renko_accumulation_counterexample :
    let b := update_brick_run (initialize_brick 1 (some 100)) [100.5, 101.2, 102.5, 99.8]
    b.brick_count = -1 ∧ b.upper_limit = some 101 ∧ b.lower_limit = some 99 ∧
      ¬(b.upper_limit = some 100 ∧ b.lower_limit = some 98) := by
  norm_num [update_brick_run, List.foldl, initialize_brick, update_brick]

/-- C5 amended: the Renko accumulation scenario as the code computes it.
With `brick_size = 1` and initialization at 100 (limits `(101, 99)`,
count 0), price 100.5 forms no brick; 101.2 forms one upward brick,
count 1, limits `(102, 100)`; 102.5 forms another, count 2, limits
`(103, 101)`; 99.8 flips the trend, count `-1`, limits `(101, 99)`. -/
theorem renko_accumulation_corrected :
    ((initialize_brick 1 (some 100)).upper_limit = some 101 ∧
      (initialize_brick 1 (some 100)).lower_limit = some 99 ∧
      (initialize_brick 1 (some 100)).brick_count = 0) ∧
    ((update_brick (initialize_brick 1 (some 100)) 100.5).2.brick_formed = false ∧
      (update_brick_run (initialize_brick 1 (some 100)) [100.5]).brick_count = 0 ∧
      (update_brick_run (initialize_brick 1 (some 100)) [100.5]).upper_limit = some 101 ∧
      (update_brick_run (initialize_brick 1 (some 100)) [100.5]).lower_limit = some 99) ∧
    ((update_brick (update_brick_run (initialize_brick 1 (some 100)) [100.5])
        101.2).2.brick_formed = true ∧
      (update_brick_run (initialize_brick 1 (some 100)) [100.5, 101.2]).brick_count = 1 ∧
      (update_brick_run (initialize_brick 1 (some 100)) [100.5, 101.2]).upper_limit =
        some 102 ∧
      (update_brick_run (initialize_brick 1 (some 100)) [100.5, 101.2]).lower_limit =
        some 100) ∧
    ((update_brick (update_brick_run (initialize_brick 1 (some 100)) [100.5, 101.2])
        102.5).2.brick_formed = true ∧
      (update_brick_run (initialize_brick 1 (some 100))
        [100.5, 101.2, 102.5]).brick_count = 2 ∧
      (update_brick_run (initialize_brick 1 (some 100))
        [100.5, 101.2, 102.5]).upper_limit = some 103 ∧
      (update_brick_run (initialize_brick 1 (some 100))
        [100.5, 101.2, 102.5]).lower_limit = some 101) ∧
    ((update_brick (update_brick_run (initialize_brick 1 (some 100))
        [100.5, 101.2, 102.5]) 99.8).2.brick_formed = true ∧
      (update_brick_run (initialize_brick 1 (some 100))
        [100.5, 101.2, 102.5, 99.8]).brick_count = -1 ∧
      (update_brick_run (initialize_brick 1 (some 100))
        [100.5, 101.2, 102.5, 99.8]).upper_limit = some 101 ∧
      (update_brick_run (initialize_brick 1 (some 100))
        [100.5, 101.2, 102.5, 99.8]).lower_limit = some 99) := by
  norm_num [initialize_brick, update_brick, update_brick_run, List.foldl]

/-- C6: once the limits of a Renko state are initialized and satisfy the
width equation, after any further sequence of `update_brick` calls the
limits remain set with `upper_limit - lower_limit = 2 * brick_size`
(and `brick_size` itself never changes). -/
theorem renko_width_invariant (b : RenkoBrick) (ps : List Rat)
    (hsize : 0 < b.brick_size) (hinit : b.widthOk) :
    ∃ u l, (update_brick_run b ps).upper_limit = some u ∧
      (update_brick_run b ps).lower_limit = some l ∧
      u - l = 2 * b.brick_size := by
  obtain ⟨u, l, hu, hl, hw⟩ := update_brick_run_widthOk b ps hinit
  exact ⟨u, l, hu, hl, by rw [hw, update_brick_run_size_eq]⟩
/-- Witness for `renko_width_invariant` at a concrete initialized state. -/
theorem renko_width_invariant_witness :
    ∃ u l, (update_brick_run (initialize_brick 1 (some 100))
        [100.5, 101.2, 102.5, 99.8]).upper_limit = some u ∧
      (update_brick_run (initialize_brick 1 (some 100))
        [100.5, 101.2, 102.5, 99.8]).lower_limit = some l ∧
      u - l = 2 * (initialize_brick 1 (some 100)).brick_size :=
  renko_width_invariant (initialize_brick 1 (some 100)) [100.5, 101.2, 102.5, 99.8]
    (by norm_num [initialize_brick])
    ⟨101, 99, by norm_num [initialize_brick], by norm_num [initialize_brick], by
      norm_num [initialize_brick]⟩

/-- C7: on the code, every weekend instant is classified as
`CLOSED (HOLIDAY)`, not `CLOSED (WEEKEND)`: `get_market_status` consults
`is_market_holiday` first and that function already returns true for
`weekday() >= 5`, so the dedicated weekend branch is unreachable.  This
contradicts the claim (and the explicit weekend branch of the source). -/
theorem weekend_classified_as_holiday (t : ISTTime) (h : 5 ≤ py_weekday t) :
    get_market_status t = ("CLOSED", "HOLIDAY") ∧
      (get_market_status t).2 ≠ "WEEKEND" := by
  have hh : is_market_holiday t = true := by
    unfold is_market_holiday
    simp [h]
  constructor
  · unfold get_market_status
    simp [hh]
  · unfold get_market_status
    simp [hh]

/-- Witness for `weekend_classified_as_holiday`: Saturday 2025-06-14 at
noon (weekday 5) is reported as a HOLIDAY close. -/
theorem weekend_classified_as_holiday_witness :
    get_market_status ⟨2025, 6, 14, 12, 0, 0⟩ = ("CLOSED", "HOLIDAY") ∧
      (get_market_status ⟨2025, 6, 14, 12, 0, 0⟩).2 ≠ "WEEKEND" :=
  weekend_classified_as_holiday ⟨2025, 6, 14, 12, 0, 0⟩ (by decide)

/-- C8 counterexample: with `available_funds = 100` and
`reserved_funds = 50`, `allocate_funds 10` (which succeeds, `10 ≤ 100`)
followed by `reclaim_reserved_funds` yields `(150, 0)`, not the
pre-allocation split `(100, 50)`: `reclaim` moves ALL reserved funds to
available, including funds reserved before the allocate. -/
theorem allocate_reclaim_counterexample :
    let s : EngineState := { initial_engine with available_funds := 100, reserved_funds := 50 }
    let r := allocate_funds s 10
    let s2 := reclaim_reserved_funds r.1
    (10 : Rat) ≤ s.available_funds ∧ r.2 = true ∧
      s2.available_funds = 150 ∧ s2.reserved_funds = 0 ∧
      ¬(s2.available_funds = s.available_funds ∧ s2.reserved_funds = s.reserved_funds) := by
  norm_num [initial_engine, allocate_funds, reclaim_reserved_funds]

/-- C8 amended: the allocate/reclaim round trip restores the funds split
provided no other funds are reserved at the time of the allocate
(`reserved_funds = 0`); `reclaim` returns all reserved funds, so with a
nonzero prior reservation the pre-allocation split is not restored. -/
theorem allocate_reclaim_roundtrip (s : EngineState) (X : Rat)
    (h0 : 0 ≤ X) (hX : X ≤ s.available_funds) (hr : s.reserved_funds = 0) :
    (reclaim_reserved_funds (allocate_funds s X).1).available_funds = s.available_funds ∧
      (reclaim_reserved_funds (allocate_funds s X).1).reserved_funds = s.reserved_funds := by
  have hnot : ¬X > s.available_funds := not_lt.mpr hX
  unfold allocate_funds reclaim_reserved_funds
  rw [if_neg hnot]
  by_cases hp : s.reserved_funds + X > 0
  · rw [if_pos hp]
    constructor
    · show s.available_funds - X + (s.reserved_funds + X) = s.available_funds
      rw [hr]; ring
    · show (0 : Rat) = s.reserved_funds
      exact hr.symm
  · rw [if_neg hp]
    have hx0 : X = 0 := le_antisymm (by rw [hr] at hp; simpa using hp) h0
    constructor
    · show s.available_funds - X = s.available_funds
      rw [hx0]; ring
    · show s.reserved_funds + X = s.reserved_funds
      rw [hx0]; ring

/-- Witness for `allocate_reclaim_roundtrip` on the fresh engine with an
allocation of 40000. -/
theorem allocate_reclaim_roundtrip_witness :
    (reclaim_reserved_funds (allocate_funds initial_engine 40000).1).available_funds =
        initial_engine.available_funds ∧
      (reclaim_reserved_funds (allocate_funds initial_engine 40000).1).reserved_funds =
        initial_engine.reserved_funds :=
  allocate_reclaim_roundtrip initial_engine 40000 (by norm_num)
    (by norm_num [initial_engine]) (by norm_num [initial_engine])

/-- C9: `update_ltp` never touches `available_funds`, `reserved_funds`,
`invested_funds` or `realized_pnl` (nor the orders or the trade log), but
it unconditionally overwrites `daily_pnl` with the sum of unrealized plus
realized P&L over the currently open positions (so realized P&L of
already-closed positions is dropped from `daily_pnl`), and it adds the
open positions realized-P&L total to `total_pnl` on every call. -/
theorem update_ltp_frame (s : EngineState) (symbol exchange : String) (ltp : Rat) :
    (update_ltp s symbol exchange ltp).available_funds = s.available_funds ∧
    (update_ltp s symbol exchange ltp).reserved_funds = s.reserved_funds ∧
    (update_ltp s symbol exchange ltp).invested_funds = s.invested_funds ∧
    (update_ltp s symbol exchange ltp).realized_pnl = s.realized_pnl ∧
    (update_ltp s symbol exchange ltp).orders = s.orders ∧
    (update_ltp s symbol exchange ltp).trades = s.trades ∧
    (update_ltp s symbol exchange ltp).trades_today = s.trades_today ∧
    (update_ltp s symbol exchange ltp).daily_pnl =
      ((update_ltp s symbol exchange ltp).positions.map
          (fun kv => kv.2.unrealised_pnl)).sum +
        ((update_ltp s symbol exchange ltp).positions.map
          (fun kv => kv.2.realised_pnl)).sum ∧
    (update_ltp s symbol exchange ltp).total_pnl = s.total_pnl +
      ((update_ltp s symbol exchange ltp).positions.map
        (fun kv => kv.2.realised_pnl)).sum := by
  unfold update_ltp
  refine ⟨rfl, rfl, rfl, rfl, rfl, rfl, rfl, rfl, rfl⟩

/-- C4 counterexample: a late tick is NOT discarded.  With an open
5-minute candle at 09:10 and a tick at 09:07:30 (bucket start 09:05,
strictly earlier), `_update_candle` closes the open candle, appends it to
the ring, fires the close callbacks, and opens a new candle at 09:05 —
the claim says all three stay unchanged. -/
theorem late_tick_discard_counterexample :
    let c := (Candle.new ⟨0, 9, 10, 0, 0⟩ 5).update 100 0
    let slot : CandleSlot := { current := some c, history := [] }
    let r := update_candle slot 5 ⟨0, 9, 7, 30, 0⟩ 101 0
    PyTime.before (get_candle_start ⟨0, 9, 7, 30, 0⟩ 5) c.timestamp ∧
      r.2 ≠ [] ∧ r.1.history ≠ slot.history ∧ r.1.current ≠ some c := by
  refine ⟨?_, ?_, ?_, ?_⟩ <;>
    norm_num [update_candle, get_candle_start, Candle.new, Candle.update,
      PyTime.before, PyTime.toMicros, trim_history, max_history]

/-- C4 amended: for every `(token, interval)` slot with an open candle,
a tick whose bucket start differs from the open candle's — in particular
every late tick — closes the open candle, appends it to the ring
(trimmed to the cap), emits exactly that candle as a close event, and
opens a fresh candle at the tick's bucket start updated with the tick;
hence close events need not be monotone in bucket start. -/
theorem late_tick_closes_candle (slot : CandleSlot) (c : Candle) (minutes : Nat)
    (t : PyTime) (price : Rat) (volume : Int)
    (hc : slot.current = some c) (hne : get_candle_start t minutes ≠ c.timestamp) :
    update_candle slot minutes t price volume =
      ({ current := some ((Candle.new (get_candle_start t minutes) minutes).update price volume)
         history := trim_history (slot.history ++ [{ c with is_closed := true }]) },
       [{ c with is_closed := true }]) := by
  unfold update_candle
  rw [hc]
  simp only []
  rw [if_neg (fun h => hne h.symm)]

/-- Witness for `late_tick_closes_candle` at the 09:10 / 09:07:30 input. -/
theorem late_tick_closes_candle_witness :
    update_candle
        { current := some ((Candle.new ⟨0, 9, 10, 0, 0⟩ 5).update 100 0), history := [] }
        5 ⟨0, 9, 7, 30, 0⟩ 101 0 =
      ({ current := some ((Candle.new (get_candle_start ⟨0, 9, 7, 30, 0⟩ 5) 5).update 101 0)
         history := trim_history ([] ++
           [{ ((Candle.new ⟨0, 9, 10, 0, 0⟩ 5).update 100 0) with is_closed := true }]) },
       [{ ((Candle.new ⟨0, 9, 10, 0, 0⟩ 5).update 100 0) with is_closed := true }]) :=
  late_tick_closes_candle _ _ 5 _ 101 0 rfl (by decide)

/-- Ten persisted trade-log entries. -/
def c10_trades : List TradeRecord :=
  List.replicate 10
    { order_id := "PAPER_0", symbol := "X", action := "BUY", quantity := 1
      price := 100, tag := none }

/-- C10: after `_load_state`, `trades_today` equals the number of
persisted trade-log entries ever (the source sets
`self.trades_today = len(self.trades)`), and when that count reaches
`max_trades_per_day`, `can_place_trade` always answers false — by the
trades-per-day rule whenever the earlier rules pass — so every
`place_order` in the restarted process raises. -/
theorem restart_trade_counter (meta : Option PersistedMeta)
    (orders : List (String × PaperOrder)) (positions : List (String × PaperPosition))
    (trades : List TradeRecord)
    (h : (load_state meta orders positions trades).max_trades_per_day ≤ trades.length) :
    (load_state meta orders positions trades).trades_today = trades.length ∧
    (∀ rf ib, (can_place_trade (load_state meta orders positions trades) rf ib).1 = false) ∧
    ((|(load_state meta orders positions trades).daily_pnl| <
        (load_state meta orders positions trades).max_loss_per_day) →
      positions.length < (load_state meta orders positions trades).max_positions →
      can_place_trade (load_state meta orders positions trades) 0 false =
        (false, "Max trades per day reached")) ∧
    (∀ pm fetch sym ex tt q ot prod price tp tag, ∃ e,
      place_order pm fetch (load_state meta orders positions trades)
        sym ex tt q ot prod price tp tag = Except.error e) := by
  set s := load_state meta orders positions trades with hs
  have htoday : s.trades_today = trades.length := by
    rw [hs]; unfold load_state; cases meta <;> rfl
  have hpos : s.positions = positions := by
    rw [hs]; unfold load_state; cases meta <;> rfl
  have hlim : ¬(s.trades_today < s.max_trades_per_day) := by
    rw [htoday]; exact not_lt.mpr h
  have h4 : s.max_trades_per_day ≤ s.trades_today := not_lt.mp hlim
  have hfalse : ∀ rf ib, (can_place_trade s rf ib).1 = false := by
    intro rf ib
    unfold can_place_trade
    dsimp only
    split_ifs <;> rfl
  refine ⟨htoday, hfalse, ?_, ?_⟩
  · intro hd hp
    have hp' : ¬(s.max_positions ≤ s.positions.length) := by
      rw [hpos]; exact not_le.mpr hp
    unfold can_place_trade
    rw [if_neg (fun hcon => absurd hcon.1 (lt_irrefl (0 : Rat))),
      if_neg (not_le.mpr hd), if_neg hp', if_pos h4]
  · intro pm fetch sym ex tt q ot prod price tp tag
    unfold place_order place_order_core
    by_cases hpm : pm = false
    · simp [hpm]
    · have hcheck := hfalse
        (if tt = "BUY" then (q : Rat) * estimated_price s sym ex price else 0)
        (tag_is_bot tag)
      simp [hpm, hcheck]

lemma alookup_aset {α : Type} (l : List (String × α)) (k : String) (v : α) :
    alookup (aset l k v) k = some v := by
  induction l with
  | nil => simp [aset, alookup]
  | cons h t ih =>
      obtain ⟨k', v'⟩ := h
      by_cases hk : k' = k
      · simp [aset, hk, alookup]
      · simp [aset, hk, alookup, ih]

lemma estimated_price_pos (s : EngineState) (sym ex : String) (price : Option Rat)
    (hp : ∀ x, price = some x → 0 < x)
    (hltp : 0 < alookupD s.ltp_cache (ex ++ ":" ++ sym) 100) :
    0 < estimated_price s sym ex price := by
  unfold estimated_price
  cases price with
  | none => exact hltp
  | some x =>
      have hx := hp x rfl
      dsimp only
      rw [if_neg (ne_of_gt hx)]
      exact hx

lemma can_place_trade_fst_false_iff (s : EngineState) (rf : Rat) (ib : Bool) :
    ((can_place_trade s rf ib).1 = false ↔
      ((0 < rf ∧ s.available_funds + (if ib then s.reserved_funds else 0) < rf) ∨
        s.max_loss_per_day ≤ |s.daily_pnl| ∨
        s.max_positions ≤ s.positions.length ∨
        s.max_trades_per_day ≤ s.trades_today)) := by
  unfold can_place_trade
  dsimp only
  split_ifs with h1 h2 h3 h4 <;> simp_all

lemma place_order_error_iff (pm : Bool) (fetch : String → Option Rat)
    (s : EngineState) (sym ex tt : String) (q : Int) (ot prod : String)
    (price tp : Option Rat) (tag : Option String) :
    ((∃ e, place_order pm fetch s sym ex tt q ot prod price tp tag = Except.error e) ↔
      (pm = false ∨
        (can_place_trade s
          (if tt = "BUY" then (q : Rat) * estimated_price s sym ex price else 0)
          (tag_is_bot tag)).1 = false)) := by
  unfold place_order place_order_core
  by_cases hpm : pm = false
  · simp [hpm]
  · rw [if_neg hpm]
    dsimp only
    by_cases hch : (can_place_trade s
        (if tt = "BUY" then (q : Rat) * estimated_price s sym ex price else 0)
        (tag_is_bot tag)).1 = true
    · rw [if_pos hch]
      dsimp only
      constructor
      · rintro ⟨e, he⟩
        split at he <;> exact Except.noConfusion he
      · rintro (h | h)
        · exact absurd h hpm
        · rw [h] at hch; exact Bool.noConfusion hch
    · rw [if_neg hch]
      dsimp only
      exact ⟨fun _ => Or.inr (Bool.not_eq_true _ ▸ hch), fun _ => ⟨_, rfl⟩⟩

/-- C3: `place_order` raises — in this functional embedding the
`Except.error` outcome, which carries no new state, matching the Python
method that raises before any mutation — exactly when the process is in
live mode (`paper_mode = false`), or the order is a BUY whose estimated
cost `qty * (given price, else cached LTP, else 100)` exceeds
`available_funds` (plus `reserved_funds` for a `BOT_` tag), or the daily
loss, open positions, or trades-per-day limit has been reached; in every
other case the new order is inserted in PENDING status and its id is
returned (for MARKET orders the fill procedure then runs on the inserted
state).  The hypotheses restrict to the data model of real orders:
positive quantity, positive price hints, positive cached LTPs. -/
theorem place_order_reject_iff (pm : Bool) (fetch : String → Option Rat)
    (s : EngineState) (sym ex tt : String) (q : Int) (ot prod : String)
    (price tp : Option Rat) (tag : Option String)
    (hq : 0 < q) (hp : ∀ x, price = some x → 0 < x)
    (hltp : 0 < alookupD s.ltp_cache (ex ++ ":" ++ sym) 100) :
    ((∃ e, place_order pm fetch s sym ex tt q ot prod price tp tag = Except.error e) ↔
      (pm = false ∨
        (tt = "BUY" ∧ s.available_funds +
            (if tag_is_bot tag then s.reserved_funds else 0) <
          (q : Rat) * estimated_price s sym ex price) ∨
        s.max_loss_per_day ≤ |s.daily_pnl| ∨
        s.max_positions ≤ s.positions.length ∨
        s.max_trades_per_day ≤ s.trades_today)) ∧
    (∀ s1 oid, place_order_core pm s sym ex tt q ot prod price tp tag =
        Except.ok (s1, oid) →
      (∃ o, alookup s1.orders oid = some o ∧ o.status = OrderStatus.PENDING) ∧
      place_order pm fetch s sym ex tt q ot prod price tp tag =
        Except.ok ((if ot = "MARKET" then simulate_fill fetch s1 oid else s1), oid)) := by
  have hest : 0 < estimated_price s sym ex price :=
    estimated_price_pos s sym ex price hp hltp
  constructor
  · rw [place_order_error_iff pm fetch s sym ex tt q ot prod price tp tag]
    have h2 : ((can_place_trade s
        (if tt = "BUY" then (q : Rat) * estimated_price s sym ex price else 0)
        (tag_is_bot tag)).1 = false ↔
        ((tt = "BUY" ∧ s.available_funds +
            (if tag_is_bot tag then s.reserved_funds else 0) <
          (q : Rat) * estimated_price s sym ex price) ∨
        s.max_loss_per_day ≤ |s.daily_pnl| ∨
        s.max_positions ≤ s.positions.length ∨
        s.max_trades_per_day ≤ s.trades_today)) := by
      rw [can_place_trade_fst_false_iff]
      by_cases htt : tt = "BUY"
      · rw [if_pos htt]
        have hpos : 0 < (q : Rat) * estimated_price s sym ex price :=
          mul_pos (by exact_mod_cast hq) hest
        simp [htt, hpos]
      · rw [if_neg htt]
        simp [htt]
    rw [h2]
  · intro s1 oid hok
    have hok0 := hok
    unfold place_order_core at hok
    by_cases hpm : pm = false
    · rw [if_pos hpm] at hok; exact Except.noConfusion hok
    · rw [if_neg hpm] at hok
      dsimp only at hok
      by_cases hch : (can_place_trade s
          (if tt = "BUY" then (q : Rat) * estimated_price s sym ex price else 0)
          (tag_is_bot tag)).1 = true
      · rw [if_pos hch] at hok
        injection hok with hpair
        injection hpair with hA hB
        constructor
        · rw [← hA, ← hB]
          exact ⟨_, alookup_aset _ _ _, rfl⟩
        · unfold place_order
          rw [hok0]
          split_ifs <;> rfl
      · rw [if_neg hch] at hok
        exact Except.noConfusion hok

/-- Witness for `place_order_reject_iff`: the fresh engine with a cached
LTP of 2500 for NSE:RELIANCE and a manual BUY of 10. -/
theorem place_order_reject_iff_witness :
    ((∃ e, place_order true (fun _ => none)
        (update_ltp initial_engine "RELIANCE" "NSE" 2500)
        "RELIANCE" "NSE" "BUY" 10 "MARKET" "MIS" none none none = Except.error e) ↔
      (true = false ∨
        ("BUY" = "BUY" ∧
          (update_ltp initial_engine "RELIANCE" "NSE" 2500).available_funds +
            (if tag_is_bot none then
              (update_ltp initial_engine "RELIANCE" "NSE" 2500).reserved_funds else 0) <
          (10 : Rat) * estimated_price (update_ltp initial_engine "RELIANCE" "NSE" 2500)
            "RELIANCE" "NSE" none) ∨
        (update_ltp initial_engine "RELIANCE" "NSE" 2500).max_loss_per_day ≤
          |(update_ltp initial_engine "RELIANCE" "NSE" 2500).daily_pnl| ∨
        (update_ltp initial_engine "RELIANCE" "NSE" 2500).max_positions ≤
          (update_ltp initial_engine "RELIANCE" "NSE" 2500).positions.length ∨
        (update_ltp initial_engine "RELIANCE" "NSE" 2500).max_trades_per_day ≤
          (update_ltp initial_engine "RELIANCE" "NSE" 2500).trades_today)) ∧
    (∀ s1 oid, place_order_core true (update_ltp initial_engine "RELIANCE" "NSE" 2500)
        "RELIANCE" "NSE" "BUY" 10 "MARKET" "MIS" none none none = Except.ok (s1, oid) →
      (∃ o, alookup s1.orders oid = some o ∧ o.status = OrderStatus.PENDING) ∧
      place_order true (fun _ => none) (update_ltp initial_engine "RELIANCE" "NSE" 2500)
        "RELIANCE" "NSE" "BUY" 10 "MARKET" "MIS" none none none =
        Except.ok ((if "MARKET" = "MARKET" then
          simulate_fill (fun _ => none) s1 oid else s1), oid)) :=
  place_order_reject_iff true (fun _ => none)
    (update_ltp initial_engine "RELIANCE" "NSE" 2500)
    "RELIANCE" "NSE" "BUY" 10 "MARKET" "MIS" none none none
    (by norm_num) (fun x h => Option.noConfusion h)
    (by norm_num [update_ltp, initial_engine, alookupD, alookup, aset])

/-- Witness for `restart_trade_counter`: a store holding exactly ten
trades blocks a fresh BUY after reload. -/
theorem restart_trade_counter_witness :
    (load_state none [] [] c10_trades).trades_today = c10_trades.length ∧
      (can_place_trade (load_state none [] [] c10_trades) 0 false).1 = false ∧
      ∃ e, place_order true (fun _ => none) (load_state none [] [] c10_trades)
        "RELIANCE" "NSE" "BUY" 1 "MARKET" "MIS" none none none = Except.error e := by
  have h := restart_trade_counter none [] [] c10_trades
    (by norm_num [load_state, initial_engine, c10_trades])
  exact ⟨h.1, h.2.1 0 false,
    h.2.2.2 true (fun _ => none) "RELIANCE" "NSE" "BUY" 1 "MARKET" "MIS" none none none⟩

/-- C1 counterexample: in the BUY/SELL round-trip scenario the final
`daily_pnl` is 200, not the claimed 100.  `update_ltp(2510)` overwrites
`daily_pnl` with the open-position unrealized P&L (100), and the closing
SELL then adds the realized 100 on top instead of replacing it. -/
theorem paper_roundtrip_counterexample :
    c1_s4.daily_pnl = 200 ∧ c1_s4.daily_pnl ≠ 100 := by
  norm_num +decide [c1_s4, c1_s3, c1_s2, c1_s1, place_order_state, place_order,
    place_order_core, can_place_trade, estimated_price, tag_is_bot, simulate_fill,
    update_position, calculate_pnl, update_ltp, initial_engine, alookup, alookupD,
    aset, aerase]

/-- C1 amended: the round trip behaves exactly as claimed except that the
final `daily_pnl` is 200 (the stale tick-time `daily_pnl` of 100 plus the
realized 100), not 100.  Both orders are accepted and filled (the
returned ids are `PAPER_0` and `PAPER_1`), the BUY leaves
available = 75000, invested = 25000, a position of net quantity 10 at
average price 2500 and one logged trade; the 2510 tick sets the
unrealized P&L to 100; the SELL leaves available = 100100, invested = 0,
the position destroyed, realized_pnl = 100 and two logged trades. -/
theorem paper_roundtrip_corrected :
    place_order true (fun _ => none) c1_s1
        "RELIANCE" "NSE" "BUY" 10 "MARKET" "MIS" none none none =
      Except.ok (c1_s2, "PAPER_0") ∧
    c1_s2.available_funds = 75000 ∧ c1_s2.invested_funds = 25000 ∧
    ((alookup c1_s2.positions "RELIANCE_NSE_MIS").map fun p =>
      (p.quantity, p.average_price)) = some (10, 2500) ∧
    c1_s2.trades.length = 1 ∧
    ((alookup c1_s3.positions "RELIANCE_NSE_MIS").map fun p =>
      p.unrealised_pnl) = some 100 ∧
    place_order true (fun _ => none) c1_s3
        "RELIANCE" "NSE" "SELL" 10 "MARKET" "MIS" none none none =
      Except.ok (c1_s4, "PAPER_1") ∧
    c1_s4.available_funds = 100100 ∧ c1_s4.invested_funds = 0 ∧
    alookup c1_s4.positions "RELIANCE_NSE_MIS" = none ∧
    c1_s4.realized_pnl = 100 ∧ c1_s4.daily_pnl = 200 ∧
    c1_s4.trades.length = 2 := by
  norm_num +decide [c1_s4, c1_s3, c1_s2, c1_s1, place_order_state, place_order,
    place_order_core, can_place_trade, estimated_price, tag_is_bot, simulate_fill,
    update_position, calculate_pnl, update_ltp, initial_engine, alookup, alookupD,
    aset, aerase]

/-- C2: the partial-sell drawdown rule is violated by the code.  Build a
position with BUY 10 at 100 (`invested_funds` rises to 1000 and the
position's `buy_value` is 1000), sell 5 at 110 (partial: invested drops
by `5 * avg_cost = 500`, realized +50), then sell the last 5 at 110: the
closing branch subtracts the FULL original `buy_value` of 1000 again
(`invested_funds` ends at -500, a cumulative drawdown of 1500 over the
sells instead of the claimed 1000) and books `sell_value - buy_value =
100` on top of the already-booked 50, so `realized_pnl` ends at 150
instead of the claimed `1100 - 1000 = 100`: the partial sell proceeds
are counted twice. -/
theorem partial_sell_drawdown_bug :
    c2_s2.invested_funds = 1000 ∧
    ((alookup c2_s2.positions "TCS_NSE_MIS").map fun p => p.buy_value) = some 1000 ∧
    c2_s4.invested_funds = 500 ∧ c2_s4.realized_pnl = 50 ∧
    ((alookup c2_s4.positions "TCS_NSE_MIS").map fun p => p.buy_value) = some 1000 ∧
    c2_s5.invested_funds = -500 ∧ c2_s5.realized_pnl = 150 ∧
    alookup c2_s5.positions "TCS_NSE_MIS" = none ∧
    c2_s2.invested_funds - c2_s5.invested_funds = 1500 ∧
    c2_s5.realized_pnl ≠ 1100 - 1000 := by
  norm_num +decide [c2_s5, c2_s4, c2_s3, c2_s2, c2_s1, place_order_state, place_order,
    place_order_core, can_place_trade, estimated_price, tag_is_bot, simulate_fill,
    update_position, calculate_pnl, update_ltp, initial_engine, alookup, alookupD,
    aset, aerase]

end SmartAlgo
